import Mathlib

/-
Shallow embedding of the Flask to-do application (`updatesss.py`):
users, tasks, the session cookie, and the HTTP route handlers
(register, login, logout, index, /tasks, /add, /delete/<id>, /toggle/<id>).
Timestamps are modelled by a logical clock (a natural number ticked on
every insert), and the SQL store by in-memory lists of rows.
-/

namespace TodoApp

/-- Model of a werkzeug salted password hash.  `generate_password_hash` /
`check_password_hash` are modelled by their verification contract: a hash
verifies exactly the password it was generated from. -/
structure PasswordHash where
  source : String
  deriving DecidableEq, Repr

/-- Model of werkzeug `generate_password_hash` (used by `User.set_password`). -/
def generate_password_hash (password : String) : PasswordHash :=
  ⟨password⟩

/-- Model of werkzeug `check_password_hash` (used by `User.check_password`). -/
def check_password_hash (h : PasswordHash) (password : String) : Bool :=
  h.source == password

/-- Python's `str.strip()`: remove leading and trailing whitespace. -/
def strip (s : String) : String :=
  ⟨((s.data.dropWhile Char.isWhitespace).reverse.dropWhile Char.isWhitespace).reverse⟩

/-- Row of the `users` table: id (auto-increment primary key), unique
username, password hash, creation timestamp. -/
structure User where
  id : Nat
  username : String
  password_hash : PasswordHash
  created_at : Nat
  deriving DecidableEq, Repr

/-- Row of the `tasks` table: id (auto-increment primary key), owner
(`user_id` foreign key), title, optional due date string, optional note,
done flag, creation timestamp. -/
structure Task where
  id : Nat
  user_id : Nat
  title : String
  due_date : Option String
  note : Option String
  done : Bool
  created_at : Nat
  deriving DecidableEq, Repr

/-- The database: the two tables, the two auto-increment counters and a
logical clock supplying `created_at` timestamps. -/
structure DB where
  users : List User
  tasks : List Task
  next_user_id : Nat
  next_task_id : Nat
  clock : Nat
  deriving DecidableEq, Repr

/-- Freshly created database (MySQL auto-increment starts at 1). -/
def DB.empty : DB :=
  ⟨[], [], 1, 1, 0⟩

/-- One element of the JSON array produced by the `/tasks` route
(`created_at` is serialized from the logical clock). -/
structure TaskJson where
  id : Nat
  title : String
  due_date : Option String
  note : Option String
  done : Bool
  created_at : Nat
  deriving DecidableEq, Repr

/-- Serialization of one task by `tasks_api`. -/
def taskToJson (t : Task) : TaskJson :=
  ⟨t.id, t.title, t.due_date, t.note, t.done, t.created_at⟩

/-- Observable HTTP responses of the application: redirects, rendered
template pages (with the optional inline error string), and the JSON
responses of the API routes. -/
inductive Response where
  | redirect (location : String)
  | page (template : String) (error : Option String)
  | jsonTasks (tasks : List TaskJson)
  | jsonOk
  | jsonError (status : Nat) (message : String)
  | serverError
  deriving DecidableEq, Repr

/-- HTTP status code of a response (`redirect` is a 302, plain renders and
JSON successes are 200, `jsonError` carries its explicit status). -/
def Response.status : Response → Nat
  | .redirect _ => 302
  | .page _ _ => 200
  | .jsonTasks _ => 200
  | .jsonOk => 200
  | .jsonError s _ => s
  | .serverError => 500

/-- Result of handling one request: the response, the database afterwards,
and the session cookie afterwards (`some uid` iff `user_id` is in the
session). -/
structure HttpResult where
  response : Response
  db : DB
  session : Option Nat
  deriving DecidableEq, Repr

/-- The `login_required` decorator: if `user_id` is not in the session,
redirect to the login page without invoking the wrapped handler; otherwise
run the handler with the session's user id. -/
def login_required (db : DB) (sess : Option Nat) (handler : Nat → HttpResult) : HttpResult :=
  match sess with
  | none => ⟨Response.redirect "/login", db, none⟩
  | some uid => handler uid

/-- The user row inserted by a successful registration. -/
def newUser (db : DB) (uname password : String) : User :=
  ⟨db.next_user_id, uname, generate_password_hash password, db.clock⟩

/-- POST `/register`: trim the username, reject if either field is empty,
reject if the (trimmed) username is already taken, otherwise insert the
user with a hashed password, put its id in the session and redirect to the
main page. -/
def register (db : DB) (sess : Option Nat) (username password : String) : HttpResult :=
  let uname := strip username
  if uname = "" ∨ password = "" then
    ⟨Response.page "register" (some "Enter username and password"), db, sess⟩
  else
    match db.users.find? (fun u => u.username == uname) with
    | some _ => ⟨Response.page "register" (some "Username already taken"), db, sess⟩
    | none =>
        ⟨Response.redirect "/",
         ⟨db.users ++ [newUser db uname password], db.tasks,
          db.next_user_id + 1, db.next_task_id, db.clock + 1⟩,
         some (newUser db uname password).id⟩

/-- POST `/login`: trim the username, look the user up; if there is no such
user or the password hash does not verify, re-render the form with the
single error string, otherwise put the user id in the session and redirect
to the main page. -/
def login (db : DB) (sess : Option Nat) (username password : String) : HttpResult :=
  let uname := strip username
  match db.users.find? (fun u => u.username == uname) with
  | none => ⟨Response.page "login" (some "Invalid credentials"), db, sess⟩
  | some user =>
      if check_password_hash user.password_hash password then
        ⟨Response.redirect "/", db, some user.id⟩
      else
        ⟨Response.page "login" (some "Invalid credentials"), db, sess⟩

/-- GET `/logout`: drop `user_id` from the session and redirect to login. -/
def logout (db : DB) (_sess : Option Nat) : HttpResult :=
  ⟨Response.redirect "/login", db, none⟩

/-- GET `/`: session-gated; renders the application shell for the session's
user (a stale user id would crash the template, surfacing as a server
error). -/
def index (db : DB) (sess : Option Nat) : HttpResult :=
  login_required db sess (fun uid =>
    match db.users.find? (fun u => u.id == uid) with
    | some _ => ⟨Response.page "app" none, db, sess⟩
    | none => ⟨Response.serverError, db, sess⟩)

/-- The comparison used by `order_by(Task.id.desc())`. -/
def taskIdDesc (a b : Task) : Bool :=
  decide (b.id ≤ a.id)

/-- The query of the `/tasks` route:
`Task.query.filter_by(user_id=user_id).order_by(Task.id.desc()).all()`. -/
def tasks_query (db : DB) (uid : Nat) : List Task :=
  (db.tasks.filter (fun t => t.user_id == uid)).mergeSort taskIdDesc

/-- GET `/tasks`: session-gated; returns the JSON serialization of the
caller's tasks, ordered by descending id. -/
def tasks_api (db : DB) (sess : Option Nat) : HttpResult :=
  login_required db sess (fun uid =>
    ⟨Response.jsonTasks ((tasks_query db uid).map taskToJson), db, sess⟩)

/-- JSON body accepted by POST `/add` (each field may be absent). -/
structure AddBody where
  title : Option String
  due_date : Option String
  note : Option String
  deriving DecidableEq, Repr

/-- Python's `value or None` on an optional string: empty or absent becomes
`None`, anything else is kept. -/
def orNone : Option String → Option String
  | none => none
  | some s => if s = "" then none else some s

/-- The task row inserted by a successful `/add` call. -/
def newTask (db : DB) (uid : Nat) (body : AddBody) : Task :=
  ⟨db.next_task_id, uid, strip (body.title.getD ""),
   orNone body.due_date, orNone body.note, false, db.clock⟩

/-- POST `/add`: session-gated; takes `(data.get('title') or '').strip()`,
rejects an empty result with a 400 JSON error, otherwise inserts the task
(empty-or-absent `due_date` and `note` coerced to no value) and answers ok. -/
def add_task (db : DB) (sess : Option Nat) (body : AddBody) : HttpResult :=
  login_required db sess (fun uid =>
    if strip (body.title.getD "") = "" then
      ⟨Response.jsonError 400 "empty", db, sess⟩
    else
      ⟨Response.jsonOk,
       ⟨db.users, db.tasks ++ [newTask db uid body],
        db.next_user_id, db.next_task_id + 1, db.clock + 1⟩,
       sess⟩)

/-- `Task.query.filter_by(id=task_id, user_id=user_id).first()`. -/
def findTask (db : DB) (uid tid : Nat) : Option Task :=
  db.tasks.find? (fun t => t.id == tid && t.user_id == uid)

/-- POST `/delete/<id>`: session-gated; 404 JSON error if the caller owns
no task with this id, otherwise delete that row (by primary key) and
answer ok. -/
def delete_task (db : DB) (sess : Option Nat) (tid : Nat) : HttpResult :=
  login_required db sess (fun uid =>
    match findTask db uid tid with
    | none => ⟨Response.jsonError 404 "not found", db, sess⟩
    | some t =>
        ⟨Response.jsonOk,
         ⟨db.users, db.tasks.filter (fun r => !(r.id == t.id)),
          db.next_user_id, db.next_task_id, db.clock⟩,
         sess⟩)

/-- The row update `t.done = not t.done`, applied to the row whose primary
key matches. -/
def flipDone (tid : Nat) (r : Task) : Task :=
  if r.id == tid then { r with done := !r.done } else r

/-- POST `/toggle/<id>`: session-gated; 404 JSON error if the caller owns
no task with this id, otherwise flip that row's `done` flag and answer ok. -/
def toggle_task (db : DB) (sess : Option Nat) (tid : Nat) : HttpResult :=
  login_required db sess (fun uid =>
    match findTask db uid tid with
    | none => ⟨Response.jsonError 404 "not found", db, sess⟩
    | some t =>
        ⟨Response.jsonOk,
         ⟨db.users, db.tasks.map (flipDone t.id),
          db.next_user_id, db.next_task_id, db.clock⟩,
         sess⟩)

/-- Follows the spec's words (not the code): an "authorization-failure
response" for an API route, i.e. a response whose HTTP status is a 4xx
client error, as opposed to a redirect or a success. -/
def specAuthFailureResponse (r : Response) : Prop :=
  400 ≤ r.status ∧ r.status < 500

/-- Follows the spec's words (not the code): an ISO-8601 calendar date
string `YYYY-MM-DD` with no timezone. -/
def specIsoDate (s : String) : Bool :=
  match s.toList with
  | [y1, y2, y3, y4, h1, m1, m2, h2, d1, d2] =>
      y1.isDigit && y2.isDigit && y3.isDigit && y4.isDigit &&
      h1 == '-' && h2 == '-' &&
      m1.isDigit && m2.isDigit && d1.isDigit && d2.isDigit &&
      decide (1 ≤ 10 * (m1.toNat - 48) + (m2.toNat - 48)) &&
      decide (10 * (m1.toNat - 48) + (m2.toNat - 48) ≤ 12) &&
      decide (1 ≤ 10 * (d1.toNat - 48) + (d2.toNat - 48)) &&
      decide (10 * (d1.toNat - 48) + (d2.toNat - 48) ≤ 31)
  | _ => false

/-- The ordering claimed by the spec for `/tasks`: most recently created
first, ties broken by descending id. -/
def lexNewestFirst (a b : Task) : Prop :=
  b.created_at < a.created_at ∨ (b.created_at = a.created_at ∧ b.id < a.id)

/-- C1 (counterexample): as stated the claim is false — with no session, the
API route `/tasks` does not return an authorization-failure (4xx) response;
like the page routes it answers a 302 redirect to the login page. -/
theorem tasks_api_unauthenticated_not_authfailure_cex :
    (tasks_api DB.empty none).response = Response.redirect "/login" ∧
    ¬ specAuthFailureResponse (tasks_api DB.empty none).response := by
  constructor
  · rfl
  · intro h
    simp [specAuthFailureResponse, tasks_api, login_required, Response.status] at h

/-- C1 (amended): every session-required route — the page route `/` and the
API routes `/tasks`, `/add`, `/delete/<id>`, `/toggle/<id>` alike — answers
a request carrying no session with a redirect to the login page, leaving
the database unchanged and the session empty; no such request is processed. -/
theorem unauthenticated_routes_redirect_to_login (db : DB) (body : AddBody) (tid : Nat) :
    index db none = ⟨Response.redirect "/login", db, none⟩ ∧
    tasks_api db none = ⟨Response.redirect "/login", db, none⟩ ∧
    add_task db none body = ⟨Response.redirect "/login", db, none⟩ ∧
    delete_task db none tid = ⟨Response.redirect "/login", db, none⟩ ∧
    toggle_task db none tid = ⟨Response.redirect "/login", db, none⟩ :=
  ⟨rfl, rfl, rfl, rfl, rfl⟩

/-- C7: when the title is empty after trimming, `/add` answers a 400 JSON
error and the database (in particular the task table) is unchanged. -/
theorem add_empty_title_invalid_input (db : DB) (uid : Nat) (body : AddBody)
    (h : strip (body.title.getD "") = "") :
    add_task db (some uid) body = ⟨Response.jsonError 400 "empty", db, some uid⟩ := by
  simp [add_task, login_required, h]

/-- C7 witness: a concrete whitespace-only title is rejected with a 400
error and no row is created. -/
theorem add_empty_title_invalid_input_wit :
    (strip "   " = "") ∧
    add_task DB.empty (some 1) ⟨some "   ", some "2024-01-01", some "n"⟩ =
      ⟨Response.jsonError 400 "empty", DB.empty, some 1⟩ :=
  ⟨by decide, add_empty_title_invalid_input DB.empty 1 ⟨some "   ", some "2024-01-01", some "n"⟩ (by decide)⟩

/-- C3: when the caller owns no task with the given id — whether the id is
absent altogether or belongs to a different owner — `/delete/<id>` and
`/toggle/<id>` both answer the same 404 JSON error and leave the database
unchanged, so the two causes are indistinguishable from the response. -/
theorem toggle_delete_not_found_unchanged (db : DB) (uid tid : Nat)
    (h : ∀ t ∈ db.tasks, ¬ (t.id = tid ∧ t.user_id = uid)) :
    delete_task db (some uid) tid = ⟨Response.jsonError 404 "not found", db, some uid⟩ ∧
    toggle_task db (some uid) tid = ⟨Response.jsonError 404 "not found", db, some uid⟩ := by
  have hfind : findTask db uid tid = none := by
    apply List.find?_eq_none.mpr
    intro t ht
    simp only [Bool.and_eq_true, beq_iff_eq]
    intro hc
    exact h t ht ⟨hc.1, hc.2⟩
  constructor
  · simp [delete_task, login_required, hfind]
  · simp [toggle_task, login_required, hfind]

/-- C3 witness: with a single task owned by user 2, user 1 asking to delete
or toggle that very id gets the 404 error and the store is untouched. -/
theorem toggle_delete_not_found_unchanged_wit :
    (∀ t ∈ (⟨[], [⟨7, 2, "t", none, none, false, 0⟩], 3, 8, 1⟩ : DB).tasks,
        ¬ (t.id = 7 ∧ t.user_id = 1)) ∧
    (delete_task ⟨[], [⟨7, 2, "t", none, none, false, 0⟩], 3, 8, 1⟩ (some 1) 7 =
      ⟨Response.jsonError 404 "not found", ⟨[], [⟨7, 2, "t", none, none, false, 0⟩], 3, 8, 1⟩, some 1⟩ ∧
     toggle_task ⟨[], [⟨7, 2, "t", none, none, false, 0⟩], 3, 8, 1⟩ (some 1) 7 =
      ⟨Response.jsonError 404 "not found", ⟨[], [⟨7, 2, "t", none, none, false, 0⟩], 3, 8, 1⟩, some 1⟩) :=
  ⟨by decide, toggle_delete_not_found_unchanged ⟨[], [⟨7, 2, "t", none, none, false, 0⟩], 3, 8, 1⟩ 1 7 (by decide)⟩

lemma flipDone_id (tid : Nat) (r : Task) : (flipDone tid r).id = r.id := by
  unfold flipDone
  split <;> rfl

lemma flipDone_user_id (tid : Nat) (r : Task) : (flipDone tid r).user_id = r.user_id := by
  unfold flipDone
  split <;> rfl

lemma flipDone_flipDone (tid : Nat) (r : Task) : flipDone tid (flipDone tid r) = r := by
  unfold flipDone
  by_cases h : (r.id == tid) = true
  · simp [h]
  · simp [h]

/-- C6: toggling a task the caller owns twice restores the whole database —
in particular the task keeps its id and owner and its `done` flag returns
to its original value. -/
theorem toggle_involution (db : DB) (uid tid : Nat) (t : Task)
    (hfind : findTask db uid tid = some t) :
    (toggle_task ((toggle_task db (some uid) tid).db) (some uid) tid).db = db ∧
    findTask ((toggle_task ((toggle_task db (some uid) tid).db) (some uid) tid).db) uid tid
      = some t := by
  have hfind' : db.tasks.find? (fun r => r.id == tid && r.user_id == uid) = some t := hfind
  have h1 : toggle_task db (some uid) tid =
      ⟨Response.jsonOk,
       ⟨db.users, db.tasks.map (flipDone t.id), db.next_user_id, db.next_task_id, db.clock⟩,
       some uid⟩ := by
    simp [toggle_task, login_required, findTask, hfind']
  have hcomp : ((fun r : Task => r.id == tid && r.user_id == uid) ∘ flipDone t.id)
      = (fun r : Task => r.id == tid && r.user_id == uid) := by
    funext r
    simp [Function.comp, flipDone_id, flipDone_user_id]
  have hfind1 : findTask ⟨db.users, db.tasks.map (flipDone t.id),
      db.next_user_id, db.next_task_id, db.clock⟩ uid tid = some (flipDone t.id t) := by
    show (db.tasks.map (flipDone t.id)).find? (fun r => r.id == tid && r.user_id == uid)
        = some (flipDone t.id t)
    rw [List.find?_map, hcomp, hfind']
    rfl
  have h2 : toggle_task ((toggle_task db (some uid) tid).db) (some uid) tid =
      ⟨Response.jsonOk,
       ⟨db.users, (db.tasks.map (flipDone t.id)).map (flipDone t.id),
        db.next_user_id, db.next_task_id, db.clock⟩,
       some uid⟩ := by
    rw [h1]
    simp [toggle_task, login_required, hfind1, flipDone_id]
  have hco : (flipDone t.id ∘ flipDone t.id) = id := by
    funext r
    simp [Function.comp, flipDone_flipDone]
  have hdb : (toggle_task ((toggle_task db (some uid) tid).db) (some uid) tid).db = db := by
    rw [h2]
    show (⟨db.users, (db.tasks.map (flipDone t.id)).map (flipDone t.id),
      db.next_user_id, db.next_task_id, db.clock⟩ : DB) = db
    rw [List.map_map, hco, List.map_id]
  exact ⟨hdb, by rw [hdb]; exact hfind⟩

/-- C6 witness: toggling task 5 of user 1 twice restores the store. -/
theorem toggle_involution_wit :
    (findTask ⟨[], [⟨5, 1, "t", none, none, false, 0⟩], 2, 6, 1⟩ 1 5 =
      some ⟨5, 1, "t", none, none, false, 0⟩) ∧
    ((toggle_task ((toggle_task ⟨[], [⟨5, 1, "t", none, none, false, 0⟩], 2, 6, 1⟩ (some 1) 5).db)
        (some 1) 5).db = ⟨[], [⟨5, 1, "t", none, none, false, 0⟩], 2, 6, 1⟩ ∧
     findTask ((toggle_task ((toggle_task ⟨[], [⟨5, 1, "t", none, none, false, 0⟩], 2, 6, 1⟩
        (some 1) 5).db) (some 1) 5).db) 1 5 = some ⟨5, 1, "t", none, none, false, 0⟩) :=
  ⟨by decide, toggle_involution ⟨[], [⟨5, 1, "t", none, none, false, 0⟩], 2, 6, 1⟩ 1 5
    ⟨5, 1, "t", none, none, false, 0⟩ (by decide)⟩

/-- C4: with a fresh username (non-empty after trimming) and non-empty
passwords, registering succeeds and binds the session to the new user,
verifying with the same credentials succeeds, and a second registration
with the same username fails with the duplicate-username error, leaving
the store unchanged. -/
theorem register_then_verify_and_duplicate (db : DB) (s1 s2 s3 : Option Nat) (u p p2 : String)
    (hu : strip u ≠ "") (hp : p ≠ "") (hp2 : p2 ≠ "")
    (hfresh : db.users.find? (fun x => x.username == strip u) = none) :
    (register db s1 u p).response = Response.redirect "/" ∧
    (register db s1 u p).session = some db.next_user_id ∧
    (login ((register db s1 u p).db) s2 u p).response = Response.redirect "/" ∧
    (login ((register db s1 u p).db) s2 u p).session = some db.next_user_id ∧
    (register ((register db s1 u p).db) s3 u p2).response =
      Response.page "register" (some "Username already taken") ∧
    (register ((register db s1 u p).db) s3 u p2).db = (register db s1 u p).db := by
  have hreg : register db s1 u p =
      ⟨Response.redirect "/",
       ⟨db.users ++ [newUser db (strip u) p], db.tasks,
        db.next_user_id + 1, db.next_task_id, db.clock + 1⟩,
       some db.next_user_id⟩ := by
    simp [register, hu, hp, hfresh, newUser]
  have hfound : (db.users ++ [newUser db (strip u) p]).find?
      (fun x => x.username == strip u) = some (newUser db (strip u) p) := by
    rw [List.find?_append, hfresh]
    simp [newUser]
  refine ⟨by rw [hreg], by rw [hreg], ?_, ?_, ?_, ?_⟩
  · rw [hreg]
    simp [login, List.find?_append, hfresh, newUser, check_password_hash, generate_password_hash]
  · rw [hreg]
    simp [login, List.find?_append, hfresh, newUser, check_password_hash, generate_password_hash]
  · rw [hreg]
    simp [register, hu, hp2, hfound]
  · rw [hreg]
    simp [register, hu, hp2, hfound]

/-- C4 witness: registering alice on an empty store, then logging in as
alice, succeeds; re-registering alice is rejected as a duplicate. -/
theorem register_then_verify_and_duplicate_wit :
    (strip "alice" ≠ "" ∧ "secret123" ≠ "" ∧ "x" ≠ "" ∧
      DB.empty.users.find? (fun x => x.username == strip "alice") = none) ∧
    ((register DB.empty none "alice" "secret123").response = Response.redirect "/" ∧
     (register DB.empty none "alice" "secret123").session = some DB.empty.next_user_id ∧
     (login ((register DB.empty none "alice" "secret123").db) none "alice" "secret123").response =
       Response.redirect "/" ∧
     (login ((register DB.empty none "alice" "secret123").db) none "alice" "secret123").session =
       some DB.empty.next_user_id ∧
     (register ((register DB.empty none "alice" "secret123").db) none "alice" "x").response =
       Response.page "register" (some "Username already taken") ∧
     (register ((register DB.empty none "alice" "secret123").db) none "alice" "x").db =
       (register DB.empty none "alice" "secret123").db) :=
  ⟨⟨by decide, by decide, by decide, by decide⟩,
   register_then_verify_and_duplicate DB.empty none none none "alice" "secret123" "x"
     (by decide) (by decide) (by decide) (by decide)⟩

/-- C5: a login that fails because the username is unknown and a login that
fails because the stored hash does not verify the password produce the very
same result — the login page re-rendered with the single error string
"Invalid credentials" and an unchanged store and session — so the cause is
not observable. -/
theorem login_failure_indistinguishable (db : DB) (sess : Option Nat)
    (u1 p1 u2 p2 : String) (user : User)
    (h1 : db.users.find? (fun x => x.username == strip u1) = none)
    (h2 : db.users.find? (fun x => x.username == strip u2) = some user)
    (h3 : check_password_hash user.password_hash p2 = false) :
    login db sess u1 p1 = login db sess u2 p2 ∧
    (login db sess u1 p1).response = Response.page "login" (some "Invalid credentials") := by
  constructor
  · simp [login, h1, h2, h3]
  · simp [login, h1]

/-- C5 witness: unknown user bob and known user alice with a wrong password
get identical login failures. -/
theorem login_failure_indistinguishable_wit :
    ((⟨[⟨1, "alice", ⟨"pw"⟩, 0⟩], [], 2, 1, 1⟩ : DB).users.find?
        (fun x => x.username == strip "bob") = none ∧
     (⟨[⟨1, "alice", ⟨"pw"⟩, 0⟩], [], 2, 1, 1⟩ : DB).users.find?
        (fun x => x.username == strip "alice") = some ⟨1, "alice", ⟨"pw"⟩, 0⟩ ∧
     check_password_hash ⟨"pw"⟩ "wrong" = false) ∧
    (login ⟨[⟨1, "alice", ⟨"pw"⟩, 0⟩], [], 2, 1, 1⟩ none "bob" "x" =
       login ⟨[⟨1, "alice", ⟨"pw"⟩, 0⟩], [], 2, 1, 1⟩ none "alice" "wrong" ∧
     (login ⟨[⟨1, "alice", ⟨"pw"⟩, 0⟩], [], 2, 1, 1⟩ none "bob" "x").response =
       Response.page "login" (some "Invalid credentials")) :=
  ⟨⟨by decide, by decide, by decide⟩,
   login_failure_indistinguishable ⟨[⟨1, "alice", ⟨"pw"⟩, 0⟩], [], 2, 1, 1⟩ none
     "bob" "x" "alice" "wrong" ⟨1, "alice", ⟨"pw"⟩, 0⟩ (by decide) (by decide) (by decide)⟩

/-- C9: when `due_date` or `note` is supplied empty or omitted, a
successful `/add` appends exactly one row in which that field is stored as
no value, never as an empty string. -/
theorem add_empty_optional_fields_none (db : DB) (uid : Nat) (body : AddBody)
    (htitle : strip (body.title.getD "") ≠ "") :
    (add_task db (some uid) body).db.tasks = db.tasks ++ [newTask db uid body] ∧
    ((body.due_date = none ∨ body.due_date = some "") → (newTask db uid body).due_date = none) ∧
    ((body.note = none ∨ body.note = some "") → (newTask db uid body).note = none) := by
  refine ⟨?_, ?_, ?_⟩
  · simp [add_task, login_required, htitle]
  · rintro (h | h) <;> simp [newTask, orNone, h]
  · rintro (h | h) <;> simp [newTask, orNone, h]

/-- C9 witness: adding a task with an empty due date and an omitted note
stores both fields as no value. -/
theorem add_empty_optional_fields_none_wit :
    (strip ((⟨some "milk", some "", none⟩ : AddBody).title.getD "") ≠ "") ∧
    ((add_task DB.empty (some 1) ⟨some "milk", some "", none⟩).db.tasks =
       DB.empty.tasks ++ [newTask DB.empty 1 ⟨some "milk", some "", none⟩] ∧
     (((⟨some "milk", some "", none⟩ : AddBody).due_date = none ∨
        (⟨some "milk", some "", none⟩ : AddBody).due_date = some "") →
       (newTask DB.empty 1 ⟨some "milk", some "", none⟩).due_date = none) ∧
     (((⟨some "milk", some "", none⟩ : AddBody).note = none ∨
        (⟨some "milk", some "", none⟩ : AddBody).note = some "") →
       (newTask DB.empty 1 ⟨some "milk", some "", none⟩).note = none)) :=
  ⟨by decide, add_empty_optional_fields_none DB.empty 1 ⟨some "milk", some "", none⟩ (by decide)⟩

/-- C8 (counterexample): as stated the claim is false — `/add` accepts and
stores a `due_date` that is not an ISO-8601 calendar date; nothing
validates the format. -/
theorem add_unvalidated_due_date_cex :
    (add_task DB.empty (some 1) ⟨some "x", some "not-a-date", none⟩).response = Response.jsonOk ∧
    (add_task DB.empty (some 1) ⟨some "x", some "not-a-date", none⟩).db.tasks =
      [⟨1, 1, "x", some "not-a-date", none, false, 0⟩] ∧
    specIsoDate "not-a-date" = false := by
  refine ⟨by decide, by decide, by decide⟩

lemma orNone_some {o : Option String} {s : String} (h : orNone o = some s) : s ≠ "" := by
  cases o with
  | none => simp [orNone] at h
  | some v =>
      by_cases hv : v = ""
      · simp [orNone, hv] at h
      · simp [orNone, hv] at h
        exact h ▸ hv

/-- C8 (amended): for every task created by `/add`, `due_date` is either
absent (empty or omitted input is coerced to absent, so absence stays
distinct from every date value) or exactly the non-empty string the client
supplied; the server does not validate that the string is an ISO-8601
date. -/
theorem add_due_date_passthrough (db : DB) (uid : Nat) (body : AddBody)
    (htitle : strip (body.title.getD "") ≠ "") :
    (add_task db (some uid) body).db.tasks = db.tasks ++ [newTask db uid body] ∧
    (newTask db uid body).due_date = orNone body.due_date ∧
    ∀ s, (newTask db uid body).due_date = some s → s ≠ "" := by
  refine ⟨?_, rfl, ?_⟩
  · simp [add_task, login_required, htitle]
  · intro s hs
    exact orNone_some hs

/-- C8 (amended) witness: a non-date string supplied by the client is
stored verbatim. -/
theorem add_due_date_passthrough_wit :
    (strip ((⟨some "x", some "hello", none⟩ : AddBody).title.getD "") ≠ "") ∧
    ((add_task DB.empty (some 1) ⟨some "x", some "hello", none⟩).db.tasks =
       DB.empty.tasks ++ [newTask DB.empty 1 ⟨some "x", some "hello", none⟩] ∧
     (newTask DB.empty 1 ⟨some "x", some "hello", none⟩).due_date =
       orNone (⟨some "x", some "hello", none⟩ : AddBody).due_date ∧
     ∀ s, (newTask DB.empty 1 ⟨some "x", some "hello", none⟩).due_date = some s → s ≠ "") :=
  ⟨by decide, add_due_date_passthrough DB.empty 1 ⟨some "x", some "hello", none⟩ (by decide)⟩

/-- C10: the registration route strips whitespace from the username only,
never from the password: a fresh user may register with a password made
entirely of whitespace, logging in with that exact password succeeds,
stripping that password would leave the empty string, and logging in with
the stripped password is rejected. -/
theorem register_password_not_trimmed (db : DB) (s1 s2 s3 : Option Nat) (u p : String)
    (hu : strip u ≠ "")
    (hfresh : db.users.find? (fun x => x.username == strip u) = none)
    (hp : p ≠ "")
    (hws : ∀ c ∈ p.data, c.isWhitespace) :
    (register db s1 u p).response = Response.redirect "/" ∧
    (login ((register db s1 u p).db) s2 u p).response = Response.redirect "/" ∧
    (login ((register db s1 u p).db) s2 u p).session = some db.next_user_id ∧
    strip p = "" ∧
    (login ((register db s1 u p).db) s3 u (strip p)).response =
      Response.page "login" (some "Invalid credentials") := by
  have hstrip : strip p = "" := by
    have hnil : p.data.dropWhile Char.isWhitespace = [] :=
      List.dropWhile_eq_nil_iff.mpr hws
    simp [strip, hnil]
  have hreg : register db s1 u p =
      ⟨Response.redirect "/",
       ⟨db.users ++ [newUser db (strip u) p], db.tasks,
        db.next_user_id + 1, db.next_task_id, db.clock + 1⟩,
       some db.next_user_id⟩ := by
    simp [register, hu, hp, hfresh, newUser]
  refine ⟨by rw [hreg], ?_, ?_, hstrip, ?_⟩
  · rw [hreg]
    simp [login, List.find?_append, hfresh, newUser, check_password_hash, generate_password_hash]
  · rw [hreg]
    simp [login, List.find?_append, hfresh, newUser, check_password_hash, generate_password_hash]
  · rw [hreg, hstrip]
    simp [login, List.find?_append, hfresh, newUser, check_password_hash,
      generate_password_hash, hp]

/-- C10 witness: bob registers with the single-space password; logging in
with the single space works, logging in with the stripped (empty) password
does not. -/
theorem register_password_not_trimmed_wit :
    (strip "bob" ≠ "" ∧
     DB.empty.users.find? (fun x => x.username == strip "bob") = none ∧
     " " ≠ "" ∧ (∀ c ∈ " ".data, c.isWhitespace)) ∧
    ((register DB.empty none "bob" " ").response = Response.redirect "/" ∧
     (login ((register DB.empty none "bob" " ").db) none "bob" " ").response =
       Response.redirect "/" ∧
     (login ((register DB.empty none "bob" " ").db) none "bob" " ").session =
       some DB.empty.next_user_id ∧
     strip " " = "" ∧
     (login ((register DB.empty none "bob" " ").db) none "bob" (strip " ")).response =
       Response.page "login" (some "Invalid credentials")) :=
  ⟨⟨by decide, by decide, by decide, by decide⟩,
   register_password_not_trimmed DB.empty none none none "bob" " "
     (by decide) (by decide) (by decide) (by decide)⟩

lemma taskIdDesc_trans : ∀ a b c : Task, taskIdDesc a b → taskIdDesc b c → taskIdDesc a c := by
  intro a b c hab hbc
  simp only [taskIdDesc, decide_eq_true_eq] at *
  omega

lemma taskIdDesc_total : ∀ a b : Task, taskIdDesc a b || taskIdDesc b a := by
  intro a b
  simp only [taskIdDesc]
  rcases Nat.le_total b.id a.id with h | h <;> simp [h]

/-- C2: `/tasks` answers with the serialization of exactly the caller's
tasks — a permutation of the rows whose `user_id` is the caller's id,
never a row of another user — ordered most recently created first with
ties broken by descending id, given the store invariants that ids are
pairwise distinct and that creation timestamps grow with ids. -/
theorem tasks_api_owner_scoped_sorted (db : DB) (uid : Nat)
    (hids : db.tasks.Pairwise (fun a b => a.id ≠ b.id))
    (hmono : ∀ t1 ∈ db.tasks, ∀ t2 ∈ db.tasks, t1.id < t2.id → t1.created_at ≤ t2.created_at) :
    (tasks_api db (some uid)).response =
      Response.jsonTasks ((tasks_query db uid).map taskToJson) ∧
    List.Perm (tasks_query db uid) (db.tasks.filter (fun t => t.user_id == uid)) ∧
    (∀ t ∈ tasks_query db uid, t.user_id = uid) ∧
    (tasks_query db uid).Pairwise lexNewestFirst := by
  have hmem : ∀ t ∈ tasks_query db uid, t ∈ db.tasks ∧ t.user_id = uid := by
    intro t ht
    have h1 : t ∈ db.tasks.filter (fun t => t.user_id == uid) := by
      simpa [tasks_query] using ht
    have h2 := List.mem_filter.mp h1
    exact ⟨h2.1, by simpa using h2.2⟩
  have hsort : (tasks_query db uid).Pairwise (fun a b => taskIdDesc a b = true) :=
    @List.sorted_mergeSort Task taskIdDesc taskIdDesc_trans taskIdDesc_total
      (db.tasks.filter (fun t => t.user_id == uid))
  have hne : (tasks_query db uid).Pairwise (fun a b => a.id ≠ b.id) := by
    have h1 : (db.tasks.filter (fun t => t.user_id == uid)).Pairwise (fun a b => a.id ≠ b.id) :=
      List.Pairwise.sublist (List.filter_sublist db.tasks) hids
    have hperm : List.Perm (db.tasks.filter (fun t => t.user_id == uid)) (tasks_query db uid) :=
      (List.mergeSort_perm _ taskIdDesc).symm
    exact (hperm.pairwise_iff (fun hxy => Ne.symm hxy)).mp h1
  have hboth : (tasks_query db uid).Pairwise
      (fun a b => taskIdDesc a b = true ∧ a.id ≠ b.id) :=
    List.pairwise_and_iff.mpr ⟨hsort, hne⟩
  refine ⟨rfl, List.mergeSort_perm _ _, fun t ht => (hmem t ht).2, ?_⟩
  apply hboth.imp_of_mem
  intro a b ha hb hr
  obtain ⟨hle, hneq⟩ := hr
  simp only [taskIdDesc, decide_eq_true_eq] at hle
  have hidlt : b.id < a.id := by omega
  have hcre : b.created_at ≤ a.created_at :=
    hmono b (hmem b hb).1 a (hmem a ha).1 hidlt
  simp only [lexNewestFirst]
  omega

/-- C2 witness: with tasks 1 and 3 owned by user 1 and task 2 by user 2,
user 1 sees exactly tasks 3 then 1, newest first. -/
theorem tasks_api_owner_scoped_sorted_wit :
    ((⟨[], [⟨1, 1, "a", none, none, false, 0⟩, ⟨2, 2, "b", none, none, false, 1⟩,
        ⟨3, 1, "c", none, none, false, 2⟩], 1, 4, 3⟩ : DB).tasks.Pairwise
        (fun a b => a.id ≠ b.id) ∧
     (∀ t1 ∈ (⟨[], [⟨1, 1, "a", none, none, false, 0⟩, ⟨2, 2, "b", none, none, false, 1⟩,
        ⟨3, 1, "c", none, none, false, 2⟩], 1, 4, 3⟩ : DB).tasks,
      ∀ t2 ∈ (⟨[], [⟨1, 1, "a", none, none, false, 0⟩, ⟨2, 2, "b", none, none, false, 1⟩,
        ⟨3, 1, "c", none, none, false, 2⟩], 1, 4, 3⟩ : DB).tasks,
        t1.id < t2.id → t1.created_at ≤ t2.created_at)) ∧
    ((tasks_api ⟨[], [⟨1, 1, "a", none, none, false, 0⟩, ⟨2, 2, "b", none, none, false, 1⟩,
        ⟨3, 1, "c", none, none, false, 2⟩], 1, 4, 3⟩ (some 1)).response =
      Response.jsonTasks ((tasks_query ⟨[], [⟨1, 1, "a", none, none, false, 0⟩,
        ⟨2, 2, "b", none, none, false, 1⟩, ⟨3, 1, "c", none, none, false, 2⟩], 1, 4, 3⟩ 1).map
          taskToJson) ∧
     List.Perm (tasks_query ⟨[], [⟨1, 1, "a", none, none, false, 0⟩,
        ⟨2, 2, "b", none, none, false, 1⟩, ⟨3, 1, "c", none, none, false, 2⟩], 1, 4, 3⟩ 1)
       ((⟨[], [⟨1, 1, "a", none, none, false, 0⟩, ⟨2, 2, "b", none, none, false, 1⟩,
        ⟨3, 1, "c", none, none, false, 2⟩], 1, 4, 3⟩ : DB).tasks.filter
          (fun t => t.user_id == 1)) ∧
     (∀ t ∈ tasks_query ⟨[], [⟨1, 1, "a", none, none, false, 0⟩,
        ⟨2, 2, "b", none, none, false, 1⟩, ⟨3, 1, "c", none, none, false, 2⟩], 1, 4, 3⟩ 1,
        t.user_id = 1) ∧
     (tasks_query ⟨[], [⟨1, 1, "a", none, none, false, 0⟩, ⟨2, 2, "b", none, none, false, 1⟩,
        ⟨3, 1, "c", none, none, false, 2⟩], 1, 4, 3⟩ 1).Pairwise lexNewestFirst) :=
  ⟨⟨by decide, by decide⟩,
   tasks_api_owner_scoped_sorted ⟨[], [⟨1, 1, "a", none, none, false, 0⟩,
     ⟨2, 2, "b", none, none, false, 1⟩, ⟨3, 1, "c", none, none, false, 2⟩], 1, 4, 3⟩ 1
     (by decide) (by decide)⟩

end TodoApp
